import Mathlib

/-!
Shallow embedding of `src/assets/hooks/nightwatch_hook.py` (the Nightwatch
hook script).  Python strings are modelled as `String` or `List Char`,
Python `None` as `Option`/`Json.null`, JSON values as the inductive `Json`
below (JSON numbers restricted to integers, which is all this program ever
produces itself), and exceptions as an explicit `Except PyExn` where the
source can raise.  External effects (the `ps` subprocess, `os.ttyname`,
`os.getppid`, the clock, and the three socket operations) are inputs in an
`Env` record; the socket write is modelled as the list of character strings
handed to `sendall`.
-/

/-- Python's ASCII whitespace set, as used by `str.strip()` and
`str.split(None)` on the ASCII text this program handles. -/
def pyIsSpace (c : Char) : Bool :=
  c = ' ' || c = '\t' || c = '\n' || c = '\r' || c.toNat = 11 || c.toNat = 12

/-- Decimal digit characters (only ever applied to `d < 10`). -/
def digitChar : Nat → Char
  | 0 => '0' | 1 => '1' | 2 => '2' | 3 => '3' | 4 => '4'
  | 5 => '5' | 6 => '6' | 7 => '7' | 8 => '8' | 9 => '9'
  | _ => '0'

/-- Lower-case hexadecimal digit characters (only ever applied to
`d < 16`). -/
def hexDigit : Nat → Char
  | 0 => '0' | 1 => '1' | 2 => '2' | 3 => '3' | 4 => '4'
  | 5 => '5' | 6 => '6' | 7 => '7' | 8 => '8' | 9 => '9'
  | 10 => 'a' | 11 => 'b' | 12 => 'c' | 13 => 'd' | 14 => 'e' | 15 => 'f'
  | _ => '0'

/-- Four-digit hexadecimal rendering, as in a JSON `\uXXXX` escape. -/
def hex4 (n : Nat) : List Char :=
  [hexDigit (n / 4096 % 16), hexDigit (n / 256 % 16),
   hexDigit (n / 16 % 16), hexDigit (n % 16)]

/-- Fuel-driven decimal rendering of a natural number (most significant
digit first); `fuel ≥ number of digits` always holds at the call site. -/
def natDecGo : Nat → Nat → List Char
  | 0, _ => []
  | fuel + 1, n => if n = 0 then [] else natDecGo fuel (n / 10) ++ [digitChar (n % 10)]

/-- Decimal rendering of a natural number, as Python prints it. -/
def natDec (n : Nat) : List Char :=
  if n = 0 then ['0'] else natDecGo (n + 1) n

/-- Decimal rendering of an integer, as Python's `json.dumps` prints one. -/
def intDec : Int → List Char
  | Int.ofNat n => natDec n
  | Int.negSucc n => '-' :: natDec (n + 1)

/-- JSON values as Python holds them after `json.load` (numbers restricted
to integers; an `obj` is a Python dict, keys unique, insertion order kept). -/
inductive Json where
  | null : Json
  | bool (b : Bool) : Json
  | int (n : Int) : Json
  | str (s : String) : Json
  | arr (elems : List Json) : Json
  | obj (members : List (String × Json)) : Json

/-- Python `dict` lookup (`data.get(k)` without default): the binding for
`k`, later bindings shadowing earlier ones. -/
def jget : List (String × Json) → String → Option Json
  | [], _ => none
  | (k₀, v) :: rest, k =>
      match jget rest k with
      | some w => some w
      | none => if k₀ = k then some v else none

/-- Python `dict.get(k, default)`. -/
def jgetD (kvs : List (String × Json)) (k : String) (d : Json) : Json :=
  (jget kvs k).getD d

/-- Python's `x == "lit"` for a JSON value `x` and a string literal: true
exactly when `x` is that string. -/
def jeqStr (j : Json) (s : String) : Bool :=
  match j with
  | .str t => t = s
  | _ => false

/-- A Python optional int as a JSON value (`None` becomes `null`). -/
def optInt : Option Int → Json
  | some n => .int n
  | none => .null

/-- A Python optional string as a JSON value (`None` becomes `null`). -/
def optStr : Option String → Json
  | some s => .str s
  | none => .null

/-- The opening brace character, as `json.dumps` prints around an object. -/
def lbrace : Char := Char.ofNat 123

/-- The closing brace character. -/
def rbrace : Char := Char.ofNat 125

/-- `json.dumps` escaping of one character inside a string literal
(default `ensure_ascii=True`): the two-character escapes for quote,
backslash and the common control characters, `\uXXXX` (with surrogate
pairs above the BMP) for other control or non-ASCII characters, and the
character itself for printable ASCII. -/
def escapeChar (c : Char) : List Char :=
  if c = '"' then ['\\', '"']
  else if c = '\\' then ['\\', '\\']
  else if c = '\n' then ['\\', 'n']
  else if c = '\r' then ['\\', 'r']
  else if c = '\t' then ['\\', 't']
  else if c.toNat = 8 then ['\\', 'b']
  else if c.toNat = 12 then ['\\', 'f']
  else if c.toNat < 32 || 126 < c.toNat then
    if c.toNat < 65536 then '\\' :: 'u' :: hex4 c.toNat
    else
      ('\\' :: 'u' :: hex4 (55296 + (c.toNat - 65536) / 1024)) ++
      ('\\' :: 'u' :: hex4 (56320 + (c.toNat - 65536) % 1024))
  else [c]

/-- `json.dumps` escaping of a whole string body. -/
def escapeStr : List Char → List Char
  | [] => []
  | c :: cs => escapeChar c ++ escapeStr cs

mutual

/-- `json.dumps(v)` with default options (separators `", "` and `": "`,
`ensure_ascii=True`), as the character sequence it produces. -/
def dumpsL : Json → List Char
  | .null => "null".data
  | .bool true => "true".data
  | .bool false => "false".data
  | .int n => intDec n
  | .str s => '"' :: escapeStr s.data ++ ['"']
  | .arr xs => '[' :: dumpsArr xs ++ [']']
  | .obj kvs => lbrace :: dumpsObj kvs ++ [rbrace]

/-- Comma-separated rendering of the elements of a JSON array. -/
def dumpsArr : List Json → List Char
  | [] => []
  | [x] => dumpsL x
  | x :: y :: xs => dumpsL x ++ ',' :: ' ' :: dumpsArr (y :: xs)

/-- Comma-separated rendering of the members of a JSON object. -/
def dumpsObj : List (String × Json) → List Char
  | [] => []
  | [(k, v)] => '"' :: escapeStr k.data ++ '"' :: ':' :: ' ' :: dumpsL v
  | (k, v) :: m :: kvs =>
      ('"' :: escapeStr k.data ++ '"' :: ':' :: ' ' :: dumpsL v) ++
      ',' :: ' ' :: dumpsObj (m :: kvs)

end

/-- Python `str.strip()` on ASCII text: drop whitespace at both ends. -/
def pyStrip (l : List Char) : List Char :=
  ((l.dropWhile pyIsSpace).reverse.dropWhile pyIsSpace).reverse

/-- Python `str.split('\n')`: split at every newline, keeping empty
pieces (so the empty string yields `[""]`). -/
def splitNl : List Char → List (List Char)
  | [] => [[]]
  | c :: cs =>
      if c = '\n' then [] :: splitNl cs
      else
        match splitNl cs with
        | r :: rs => (c :: r) :: rs
        | [] => [[c]]

/-- Python `str.split(None, maxsplit)`: skip leading whitespace, take
maximal non-whitespace tokens; once `maxsplit` tokens are split off, the
remainder (after skipping the whitespace that follows) is the final
element if non-empty. -/
def pySplitMax (l : List Char) (maxsplit : Nat) : List (List Char) :=
  let rest := l.dropWhile pyIsSpace
  if rest = [] then []
  else
    match maxsplit with
    | 0 => [rest]
    | m + 1 =>
        rest.takeWhile (fun c => !pyIsSpace c) ::
          pySplitMax (rest.dropWhile (fun c => !pyIsSpace c)) m

/-- State of Python's `int()` digit scanner: nothing read yet, last read a
digit, or last read an underscore. -/
inductive DigState where
  | start : DigState
  | dig : DigState
  | und : DigState

/-- Digit-and-underscore scanner for Python `int()`: underscores are legal
only between digits; the scan must end on a digit. -/
def pyDigitsGo : DigState → Nat → List Char → Option Nat
  | s, acc, [] => match s with | .dig => some acc | _ => none
  | s, acc, c :: cs =>
      if c.isDigit then pyDigitsGo .dig (acc * 10 + (c.toNat - 48)) cs
      else if c = '_' then
        match s with
        | .dig => pyDigitsGo .und acc cs
        | _ => none
      else none

/-- Python `int(str)` on ASCII text: strip whitespace, optional sign, then
digits (underscores allowed between digits); `none` models the
`ValueError` raised on anything else. -/
def pyInt (l : List Char) : Option Int :=
  match pyStrip l with
  | '+' :: rest => (pyDigitsGo .start 0 rest).map Int.ofNat
  | '-' :: rest => (pyDigitsGo .start 0 rest).map (fun n => -(n : Int))
  | rest => (pyDigitsGo .start 0 rest).map Int.ofNat

/-- Outcome of the bounded `subprocess.run(['ps', ...], timeout=1)` query:
either the one-second timeout fired, or the process completed with an
exit status and captured text output. -/
inductive PsOutcome where
  | timeout : PsOutcome
  | completed (returncode : Int) (stdout : List Char) : PsOutcome

/-- The Python exceptions this program's control flow distinguishes. -/
inductive PyExn where
  | timeoutExpired : PyExn
  | valueError : PyExn
  | indexError : PyExn
  | attributeError : PyExn
deriving DecidableEq

/-- The dict returned by `get_terminal_pid`: `pid` is always the parent
process id (an int, never `None`); `ppid` and `tty` are best-effort. -/
structure TerminalInfo where
  pid : Int
  ppid : Option Int
  tty : Option String
deriving DecidableEq

/-- The `try` body of `get_terminal_pid` (lines 27–45): `ok (some info)`
models reaching a `return` inside the `if`s, `ok none` models falling
through them, `error` models a raised exception. -/
def gtpTry (ppid : Int) (ps : PsOutcome) : Except PyExn (Option TerminalInfo) :=
  match ps with
  | .timeout => .error .timeoutExpired
  | .completed rc out =>
      if rc = 0 then
        match splitNl (pyStrip out) with
        | _ :: line2 :: _ =>
            match pySplitMax line2 3 with
            | _ :: p1 :: rest =>
                match pyInt p1 with
                | some n => .ok (some ⟨ppid, some n, rest.head?.map String.mk⟩)
                | none => .error .valueError
            | _ => .ok (some ⟨ppid, none, none⟩)
        | _ => .ok none
      else .ok none

/-- `get_terminal_pid` (lines 25–48): run the `try` body; the `except`
clause swallows `TimeoutExpired`, `ValueError` and `IndexError`, and both
that clause and the fall-through path end at the fallback
`returncode {pid: ppid, ppid: None, tty: None}` on line 48. -/
def get_terminal_pid (ppid : Int) (ps : PsOutcome) : Except PyExn TerminalInfo :=
  match gtpTry ppid ps with
  | .ok (some info) => .ok info
  | .ok none => .ok ⟨ppid, none, none⟩
  | .error .timeoutExpired => .ok ⟨ppid, none, none⟩
  | .error .valueError => .ok ⟨ppid, none, none⟩
  | .error .indexError => .ok ⟨ppid, none, none⟩
  | .error e => .error e

/-- `get_tty` (lines 17–22): `os.ttyname(sys.stdin.fileno())`, with the
caught `OSError`/`AttributeError` modelled as the `none` input. -/
def get_tty (ttynameResult : Option String) : Option String :=
  ttynameResult

/-- The fixed endpoint path (line 13). -/
def SOCKET_PATH : String := "/tmp/nightwatch.sock"

/-- The socket connect/write timeout in seconds (line 14). -/
def TIMEOUT_SECONDS : Nat := 2

/-- Python's `tty or terminal_info.get('tty')` (line 90): the override
when it is a truthy (non-empty) string, else the identity's tty. -/
def pyOrTty (tty : Option String) (infoTty : Option String) : Json :=
  match tty with
  | some s => if s = "" then optStr infoTty else .str s
  | none => optStr infoTty

/-- Lines 83–91 of `main`: the base state dict literal. -/
def baseState (sid cwd event : Json) (info : TerminalInfo)
    (tty : Option String) (ts : Int) : List (String × Json) :=
  [("session_id", sid), ("cwd", cwd), ("event", event),
   ("timestamp", Json.int ts), ("pid", Json.int info.pid),
   ("ppid", optInt info.ppid), ("tty", pyOrTty tty info.tty)]

/-- Lines 83–117 of `main`: the state dict as built from the extracted
fields, the resolved identity, the `get_tty` result and the timestamp —
the base dict literal followed by the `event`-dispatched assignments
(fresh keys, so each assignment appends in insertion order). -/
def buildState (sid cwd event tool : Json) (info : TerminalInfo)
    (tty : Option String) (ts : Int) : List (String × Json) :=
  if jeqStr event "SessionStart" then
    baseState sid cwd event info tty ts ++ [("status", Json.str "started")]
  else if jeqStr event "SessionEnd" then
    baseState sid cwd event info tty ts ++ [("status", Json.str "ended")]
  else if jeqStr event "PreToolUse" then
    baseState sid cwd event info tty ts ++ [("status", Json.str "active"), ("tool", tool)]
  else if jeqStr event "PostToolUse" then
    baseState sid cwd event info tty ts ++ [("status", Json.str "active"), ("tool", tool)]
  else if jeqStr event "UserPromptSubmit" then
    baseState sid cwd event info tty ts
      ++ [("status", Json.str "active"), ("user_input", Json.bool true)]
  else if jeqStr event "Stop" then
    baseState sid cwd event info tty ts ++ [("status", Json.str "idle")]
  else baseState sid cwd event info tty ts ++ [("status", Json.str "active")]

/-- Lines 72–117: field extraction with defaults (`"unknown"`, `""`, `""`,
`None`) followed by `buildState`. -/
def extractState (kvs : List (String × Json)) (info : TerminalInfo)
    (tty : Option String) (ts : Int) : List (String × Json) :=
  buildState (jgetD kvs "session_id" (.str "unknown"))
    (jgetD kvs "cwd" (.str ""))
    (jgetD kvs "hook_event_name" (.str ""))
    (jgetD kvs "tool_name" .null) info tty ts

/-- The status column of the table in §4.2 of the spec, keyed on the
event kind alone (the refinement target `buildState` is compared with). -/
def specStatus (ek : String) : String :=
  if ek = "SessionStart" then "started"
  else if ek = "SessionEnd" then "ended"
  else if ek = "PreToolUse" then "active"
  else if ek = "PostToolUse" then "active"
  else if ek = "UserPromptSubmit" then "active"
  else if ek = "Stop" then "idle"
  else "active"

/-- How many bindings of a dict-as-list carry a given key. -/
def countKey : List (String × Json) → String → Nat
  | [], _ => 0
  | (k₀, _) :: rest, k => (if k₀ = k then 1 else 0) + countKey rest k

/-- The environment a single invocation runs against: the parent process
id, the outcome of the `ps` query, the `os.ttyname` result (`none` for the
caught failure), the clock reading `int(os.times().elapsed * 1000)`, and
whether each of the three socket operations would succeed. -/
structure Env where
  ppid : Int
  ps : PsOutcome
  ttyname : Option String
  elapsedMs : Int
  connectOk : Bool
  sendOk : Bool
  closeOk : Bool

/-- What one call to `send_to_app` did to the socket: how many connects
were attempted, the full payloads successfully handed to `sendall`, and
whether the socket was closed. -/
structure SendTrace where
  connectAttempts : Nat
  written : List (List Char)
  closed : Bool
deriving DecidableEq

/-- `send_to_app` (lines 51–62): connect, `sendall(json.dumps(state)
.encode() + b'\n')`, close, `return True`; any `socket.error`/`OSError`
at any step is caught and yields `return False` (one connect attempt, no
retry).  The payload is modelled as its character sequence (the source
string is pure ASCII under `ensure_ascii`, so UTF-8 encoding is the
identity on it). -/
def send_to_app (env : Env) (state : List (String × Json)) : Bool × SendTrace :=
  if env.connectOk then
    if env.sendOk then
      if env.closeOk then
        (true, ⟨1, [dumpsL (Json.obj state) ++ ['\n']], true⟩)
      else (false, ⟨1, [dumpsL (Json.obj state) ++ ['\n']], false⟩)
    else (false, ⟨1, [], false⟩)
  else (false, ⟨1, [], false⟩)

/-- How one invocation ended: `sys.exit(code)` or an uncaught exception
(which makes the interpreter print a traceback and exit non-zero), in
both cases together with the traces of the delivery attempts made. -/
inductive MainResult where
  | exit (code : Nat) (deliveries : List SendTrace) : MainResult
  | uncaught (e : PyExn) (deliveries : List SendTrace) : MainResult
deriving DecidableEq

/-- The exit code of a `MainResult`, `none` when an exception escaped. -/
def exitOf : MainResult → Option Nat
  | .exit code _ => some code
  | .uncaught _ _ => none

/-- What `json.load(sys.stdin)` produced: a `JSONDecodeError` (caught on
line 69) or a decoded JSON value. -/
inductive Input where
  | parseFail : Input
  | parsed (data : Json) : Input

/-- `main` as `pymain` (lines 65–123): on parse failure `sys.exit(0)` with no
delivery; on a decoded non-object, `data.get(...)` on line 73 raises an
uncaught `AttributeError`; on an object, extract fields, resolve the
identity (an escaping exception there would also propagate, though
`get_terminal_pid` never lets one escape), build the state, attempt
exactly one delivery, ignore its result, and `sys.exit(0)`. -/
def pymain (env : Env) (inp : Input) : MainResult :=
  match inp with
  | .parseFail => .exit 0 []
  | .parsed data =>
      match data with
      | .obj kvs =>
          match get_terminal_pid env.ppid env.ps with
          | .error e => .uncaught e []
          | .ok info =>
              let state := extractState kvs info (get_tty env.ttyname) env.elapsedMs
              .exit 0 [(send_to_app env state).2]
      | _ => .uncaught .attributeError []

/-- No decimal digit character is a newline. -/
theorem digitChar_ne_nl (d : Nat) : digitChar d ≠ '\n' := by
  match d with
  | 0 | 1 | 2 | 3 | 4 | 5 | 6 | 7 | 8 | 9 => decide
  | n + 10 =>
      have h : digitChar (n + 10) = '0' := rfl
      rw [h]; decide

/-- No hexadecimal digit character is a newline. -/
theorem hexDigit_ne_nl (d : Nat) : hexDigit d ≠ '\n' := by
  match d with
  | 0 | 1 | 2 | 3 | 4 | 5 | 6 | 7 | 8 | 9
  | 10 | 11 | 12 | 13 | 14 | 15 => decide
  | n + 16 =>
      have h : hexDigit (n + 16) = '0' := rfl
      rw [h]; decide

/-- Every character `natDecGo` emits is a decimal digit character. -/
theorem natDecGo_mem (fuel : Nat) :
    ∀ n c, c ∈ natDecGo fuel n → ∃ d, c = digitChar d := by
  induction fuel with
  | zero => intro n c h; simp [natDecGo] at h
  | succ f ih =>
      intro n c h
      rw [natDecGo] at h
      by_cases hn : n = 0
      · simp [hn] at h
      · rw [if_neg hn] at h
        rcases List.mem_append.mp h with h₁ | h₂
        · exact ih _ _ h₁
        · exact ⟨n % 10, List.mem_singleton.mp h₂⟩

/-- A decimal integer rendering never contains a newline. -/
theorem intDec_no_nl (n : Int) : '\n' ∉ intDec n := by
  have hnat : ∀ m : Nat, '\n' ∉ natDec m := by
    intro m hm
    rw [natDec] at hm
    split_ifs at hm with h0
    · simp at hm
    · obtain ⟨d, hd⟩ := natDecGo_mem _ _ _ hm
      exact digitChar_ne_nl d hd.symm
  match n with
  | Int.ofNat m => exact hnat m
  | Int.negSucc m =>
      intro h
      rcases List.mem_cons.mp h with h₁ | h₂
      · exact absurd h₁ (by decide)
      · exact hnat (m + 1) h₂

/-- Every character in a four-digit hex rendering is a hex digit. -/
theorem hex4_mem (n : Nat) : ∀ c ∈ hex4 n, ∃ d, c = hexDigit d := by
  intro c h
  rw [hex4] at h
  rcases List.mem_cons.mp h with h₁ | h₁
  · exact ⟨_, h₁⟩
  rcases List.mem_cons.mp h₁ with h₂ | h₂
  · exact ⟨_, h₂⟩
  rcases List.mem_cons.mp h₂ with h₃ | h₃
  · exact ⟨_, h₃⟩
  · exact ⟨_, List.mem_singleton.mp h₃⟩

/-- The escape expansion of a character never contains a newline. -/
theorem escapeChar_no_nl (c : Char) : '\n' ∉ escapeChar c := by
  intro h
  rw [escapeChar] at h
  split_ifs at h with h1 h2 h3 h4 h5 h6 h7 h8 h9
  · simp at h
  · simp at h
  · simp at h
  · simp at h
  · simp at h
  · simp at h
  · simp at h
  · -- the `\uXXXX` arm for a BMP character
    rcases List.mem_cons.mp h with hc | hc
    · exact absurd hc (by decide)
    rcases List.mem_cons.mp hc with hc' | hc'
    · exact absurd hc' (by decide)
    · obtain ⟨d, hd⟩ := hex4_mem _ _ hc'
      exact hexDigit_ne_nl d hd.symm
  · -- the surrogate-pair arm
    rcases List.mem_append.mp h with hp | hp <;>
    · rcases List.mem_cons.mp hp with hc | hc
      · exact absurd hc (by decide)
      · rcases List.mem_cons.mp hc with hc' | hc'
        · exact absurd hc' (by decide)
        · obtain ⟨d, hd⟩ := hex4_mem _ _ hc'
          exact hexDigit_ne_nl d hd.symm
  · -- the printable-ASCII arm: the character itself, which is not `'\n'`
    have hcne : c ≠ '\n' := by
      intro heq; subst heq; exact h8 (by decide)
    exact hcne (List.mem_singleton.mp h).symm

/-- An escaped string body never contains a newline. -/
theorem escapeStr_no_nl : ∀ l, '\n' ∉ escapeStr l := by
  intro l
  induction l with
  | nil => simp [escapeStr]
  | cons c cs ih =>
      intro h
      rw [escapeStr] at h
      rcases List.mem_append.mp h with h₁ | h₂
      · exact escapeChar_no_nl c h₁
      · exact ih h₂

/-- Every JSON value has positive size (used for the induction below). -/
theorem Json_sizeOf_pos (j : Json) : 1 ≤ sizeOf j := by
  cases j <;> simp_arith

/-- Size-bounded form of the no-newline property for the three mutually
recursive serializers. -/
theorem dumps_nl_aux (N : Nat) :
    (∀ j : Json, sizeOf j < N → '\n' ∉ dumpsL j) ∧
    (∀ xs : List Json, sizeOf xs < N → '\n' ∉ dumpsArr xs) ∧
    (∀ kvs : List (String × Json), sizeOf kvs < N → '\n' ∉ dumpsObj kvs) := by
  induction N with
  | zero =>
      exact ⟨fun j h => absurd h (Nat.not_lt_zero _),
             fun xs h => absurd h (Nat.not_lt_zero _),
             fun kvs h => absurd h (Nat.not_lt_zero _)⟩
  | succ N ih =>
      obtain ⟨ihJ, ihA, ihO⟩ := ih
      refine ⟨?_, ?_, ?_⟩
      · intro j hj
        match j with
        | .null => decide
        | .bool true => decide
        | .bool false => decide
        | .int n => exact intDec_no_nl n
        | .str s =>
            intro h
            rw [dumpsL] at h
            rcases List.mem_cons.mp h with h₁ | h₁
            · exact absurd h₁ (by decide)
            rcases List.mem_append.mp h₁ with h₂ | h₂
            · exact escapeStr_no_nl _ h₂
            · exact absurd h₂ (by decide)
        | .arr xs =>
            have hx : sizeOf xs < N := by
              have := hj; simp only [Json.arr.sizeOf_spec] at this; omega
            intro h
            rw [dumpsL] at h
            rcases List.mem_cons.mp h with h₁ | h₁
            · exact absurd h₁ (by decide)
            rcases List.mem_append.mp h₁ with h₂ | h₂
            · exact ihA xs hx h₂
            · exact absurd h₂ (by decide)
        | .obj kvs =>
            have hk : sizeOf kvs < N := by
              have := hj; simp only [Json.obj.sizeOf_spec] at this; omega
            intro h
            rw [dumpsL] at h
            rcases List.mem_cons.mp h with h₁ | h₁
            · exact absurd h₁ (by decide)
            rcases List.mem_append.mp h₁ with h₂ | h₂
            · exact ihO kvs hk h₂
            · exact absurd h₂ (by decide)
      · intro xs hxs
        match xs with
        | [] => simp [dumpsArr]
        | [x] =>
            have hx : sizeOf x < N := by
              have := hxs; simp only [List.cons.sizeOf_spec] at this; omega
            rw [dumpsArr]; exact ihJ x hx
        | x :: y :: rest =>
            have hx : sizeOf x < N := by
              have := hxs
              simp only [List.cons.sizeOf_spec] at this
              have hy := Json_sizeOf_pos y
              omega
            have hyr : sizeOf (y :: rest) < N := by
              have := hxs
              simp only [List.cons.sizeOf_spec] at this ⊢
              have hx1 := Json_sizeOf_pos x
              omega
            intro h
            rw [dumpsArr] at h
            rcases List.mem_append.mp h with h₁ | h₁
            · exact ihJ x hx h₁
            rcases List.mem_cons.mp h₁ with h₂ | h₂
            · exact absurd h₂ (by decide)
            rcases List.mem_cons.mp h₂ with h₃ | h₃
            · exact absurd h₃ (by decide)
            · exact ihA (y :: rest) hyr h₃
      · intro kvs hkvs
        match kvs with
        | [] => simp [dumpsObj]
        | [(k, v)] =>
            have hv : sizeOf v < N := by
              have := hkvs
              simp only [List.cons.sizeOf_spec, Prod.mk.sizeOf_spec] at this
              omega
            intro h
            rw [dumpsObj] at h
            rcases List.mem_cons.mp h with h₁ | h₁
            · exact absurd h₁ (by decide)
            rcases List.mem_append.mp h₁ with h₂ | h₂
            · exact escapeStr_no_nl _ h₂
            rcases List.mem_cons.mp h₂ with h₃ | h₃
            · exact absurd h₃ (by decide)
            rcases List.mem_cons.mp h₃ with h₄ | h₄
            · exact absurd h₄ (by decide)
            rcases List.mem_cons.mp h₄ with h₅ | h₅
            · exact absurd h₅ (by decide)
            · exact ihJ v hv h₅
        | (k, v) :: m :: rest =>
            have hv : sizeOf v < N := by
              have := hkvs
              simp only [List.cons.sizeOf_spec, Prod.mk.sizeOf_spec] at this
              omega
            have hmr : sizeOf (m :: rest) < N := by
              have := hkvs
              simp only [List.cons.sizeOf_spec, Prod.mk.sizeOf_spec] at this ⊢
              omega
            intro h
            rw [dumpsObj] at h
            rcases List.mem_append.mp h with h₁ | h₁
            · rcases List.mem_cons.mp h₁ with h₂ | h₂
              · exact absurd h₂ (by decide)
              rcases List.mem_append.mp h₂ with h₃ | h₃
              · exact escapeStr_no_nl _ h₃
              rcases List.mem_cons.mp h₃ with h₄ | h₄
              · exact absurd h₄ (by decide)
              rcases List.mem_cons.mp h₄ with h₅ | h₅
              · exact absurd h₅ (by decide)
              rcases List.mem_cons.mp h₅ with h₆ | h₆
              · exact absurd h₆ (by decide)
              · exact ihJ v hv h₆
            rcases List.mem_cons.mp h₁ with h₂ | h₂
            · exact absurd h₂ (by decide)
            rcases List.mem_cons.mp h₂ with h₃ | h₃
            · exact absurd h₃ (by decide)
            · exact ihO (m :: rest) hmr h₃

/-- A serialized JSON value never contains a raw newline: every interior
newline is escaped, so the trailing `b'\n'` is the only frame delimiter. -/
theorem dumpsL_no_nl (j : Json) : '\n' ∉ dumpsL j :=
  (dumps_nl_aux (sizeOf j + 1)).1 j (Nat.lt_succ_self _)

/-- Claim C1: normalization is total and builds exactly one record; the
`status` field of the record built by `buildState` is determined solely by
the event kind per the §4.2 table (`specStatus`), `PreToolUse`/`PostToolUse`
carry `tool = tool_name`, `UserPromptSubmit` carries `user_input = true`,
and `Stop` carries neither `tool` nor `user_input`. -/
theorem claim_C1_status_table (sid cwd tool : Json) (ek : String)
    (info : TerminalInfo) (tty : Option String) (ts : Int) :
    jget (buildState sid cwd (.str ek) tool info tty ts) "status"
      = some (.str (specStatus ek)) ∧
    countKey (buildState sid cwd (.str ek) tool info tty ts) "status" = 1 ∧
    (ek = "PreToolUse" ∨ ek = "PostToolUse" →
      jget (buildState sid cwd (.str ek) tool info tty ts) "tool" = some tool) ∧
    (ek = "UserPromptSubmit" →
      jget (buildState sid cwd (.str ek) tool info tty ts) "user_input"
        = some (.bool true)) ∧
    (ek = "Stop" →
      jget (buildState sid cwd (.str ek) tool info tty ts) "tool" = none ∧
      jget (buildState sid cwd (.str ek) tool info tty ts) "user_input" = none) := by
  by_cases h1 : ek = "SessionStart"
  · subst h1
    exact ⟨rfl, rfl, by simp, by simp, by simp⟩
  by_cases h2 : ek = "SessionEnd"
  · subst h2
    exact ⟨rfl, rfl, by simp, by simp, by simp⟩
  by_cases h3 : ek = "PreToolUse"
  · subst h3
    exact ⟨rfl, rfl, fun _ => rfl, by simp, by simp⟩
  by_cases h4 : ek = "PostToolUse"
  · subst h4
    exact ⟨rfl, rfl, fun _ => rfl, by simp, by simp⟩
  by_cases h5 : ek = "UserPromptSubmit"
  · subst h5
    exact ⟨rfl, rfl, by simp, fun _ => rfl, by simp⟩
  by_cases h6 : ek = "Stop"
  · subst h6
    exact ⟨rfl, rfl, by simp, by simp, fun _ => ⟨rfl, rfl⟩⟩
  · have hb : buildState sid cwd (.str ek) tool info tty ts
        = baseState sid cwd (.str ek) info tty ts ++ [("status", Json.str "active")] := by
      unfold buildState
      simp [jeqStr, h1, h2, h3, h4, h5, h6]
    have hs : specStatus ek = "active" := by
      unfold specStatus
      simp [h1, h2, h3, h4, h5, h6]
    rw [hb, hs]
    exact ⟨rfl, rfl, fun h => absurd h (by simp [h3, h4]), fun h => absurd h h5,
           fun h => absurd h h6⟩

/-- Witness for C1 at a concrete `Stop` event. -/
theorem claim_C1_witness :
    jget (buildState (Json.str "abc") (Json.str "/tmp") (Json.str "Stop") Json.null
        ⟨1, none, none⟩ none 0) "status" = some (Json.str (specStatus "Stop")) ∧
    jget (buildState (Json.str "abc") (Json.str "/tmp") (Json.str "Stop") Json.null
        ⟨1, none, none⟩ none 0) "tool" = none :=
  ⟨(claim_C1_status_table (Json.str "abc") (Json.str "/tmp") Json.null "Stop"
      ⟨1, none, none⟩ none 0).1,
   ((claim_C1_status_table (Json.str "abc") (Json.str "/tmp") Json.null "Stop"
      ⟨1, none, none⟩ none 0).2.2.2.2 rfl).1⟩

/-- Claim C2 (code bug): for an input that is valid JSON but not an
object — here the array `[1, 2, 3]` — `data.get("session_id", ...)` on
line 73 raises an uncaught `AttributeError`, so the interpreter exits
non-zero, contradicting the always-success exit contract; this holds for
every environment. -/
theorem claim_C2_nonobject_crash (env : Env) :
    pymain env (.parsed (.arr [.int 1, .int 2, .int 3]))
      = .uncaught .attributeError [] ∧
    exitOf (pymain env (.parsed (.arr [.int 1, .int 2, .int 3]))) = none :=
  ⟨rfl, rfl⟩

/-- Claim C3: unparseable input makes `main` exit 0 immediately, with no
delivery attempt and nothing written. -/
theorem claim_C3_malformed_exits_clean (env : Env) :
    pymain env .parseFail = .exit 0 [] ∧
    exitOf (pymain env .parseFail) = some 0 :=
  ⟨rfl, rfl⟩

/-- The failure modes of the bounded query the spec (§4.1) and the claim
enumerate, read off the code's own failure paths: timeout, non-zero exit
status, no data line below the header, or an unparseable parent-pid
column (malformed output causing the caught `ValueError`). -/
def queryFailed : PsOutcome → Prop
  | .timeout => True
  | .completed rc out =>
      rc ≠ 0 ∨
      match splitNl (pyStrip out) with
      | _ :: line2 :: _ =>
          (match pySplitMax line2 3 with
           | _ :: p1 :: _ => pyInt p1 = none
           | _ => False)
      | _ => True

/-- Claim C4: `get_terminal_pid` never raises (within the outcome space of
the bounded query): it always returns a `TerminalInfo` whose `pid` is the
(non-`None`) parent pid; on every enumerated query failure it returns the
exact fallback `(pid = ppid, ppid = None, tty = None)`; and short data
lines degrade field-by-field (a one-column line loses both `ppid` and
`tty`, a two-column line keeps the parsed `ppid` and loses only `tty`, a
line of three or more columns keeps both). -/
theorem claim_C4_resolver_total (ppid : Int) (ps : PsOutcome) :
    (∃ info, get_terminal_pid ppid ps = .ok info ∧ info.pid = ppid) ∧
    (queryFailed ps → get_terminal_pid ppid ps = .ok ⟨ppid, none, none⟩) ∧
    (∀ out line1 line2 ls p0,
       splitNl (pyStrip out) = line1 :: line2 :: ls →
       pySplitMax line2 3 = [p0] →
       get_terminal_pid ppid (.completed 0 out) = .ok ⟨ppid, none, none⟩) ∧
    (∀ out line1 line2 ls p0 p1 n,
       splitNl (pyStrip out) = line1 :: line2 :: ls →
       pySplitMax line2 3 = [p0, p1] → pyInt p1 = some n →
       get_terminal_pid ppid (.completed 0 out) = .ok ⟨ppid, some n, none⟩) ∧
    (∀ out line1 line2 ls p0 p1 p2 rest n,
       splitNl (pyStrip out) = line1 :: line2 :: ls →
       pySplitMax line2 3 = p0 :: p1 :: p2 :: rest → pyInt p1 = some n →
       get_terminal_pid ppid (.completed 0 out)
         = .ok ⟨ppid, some n, some (String.mk p2)⟩) := by
  refine ⟨?_, ?_, ?_, ?_, ?_⟩
  · cases ps with
    | timeout => exact ⟨⟨ppid, none, none⟩, rfl, rfl⟩
    | completed rc out =>
        by_cases hrc : rc = 0
        · subst hrc
          rcases hsp : splitNl (pyStrip out) with _ | ⟨l1, _ | ⟨l2, ls⟩⟩
          · exact ⟨⟨ppid, none, none⟩, by simp [get_terminal_pid, gtpTry, hsp], rfl⟩
          · exact ⟨⟨ppid, none, none⟩, by simp [get_terminal_pid, gtpTry, hsp], rfl⟩
          · rcases hpm : pySplitMax l2 3 with _ | ⟨p0, _ | ⟨p1, prest⟩⟩
            · exact ⟨⟨ppid, none, none⟩,
                by simp [get_terminal_pid, gtpTry, hsp, hpm], rfl⟩
            · exact ⟨⟨ppid, none, none⟩,
                by simp [get_terminal_pid, gtpTry, hsp, hpm], rfl⟩
            · rcases hint : pyInt p1 with _ | n
              · exact ⟨⟨ppid, none, none⟩,
                  by simp [get_terminal_pid, gtpTry, hsp, hpm, hint], rfl⟩
              · exact ⟨⟨ppid, some n, prest.head?.map String.mk⟩,
                  by simp [get_terminal_pid, gtpTry, hsp, hpm, hint], rfl⟩
        · exact ⟨⟨ppid, none, none⟩, by simp [get_terminal_pid, gtpTry, hrc], rfl⟩
  · cases ps with
    | timeout => exact fun _ => rfl
    | completed rc out =>
        intro hqf
        by_cases hrc : rc = 0
        · subst hrc
          simp only [queryFailed] at hqf
          rcases hqf with h | h
          · exact absurd rfl h
          · rcases hsp : splitNl (pyStrip out) with _ | ⟨l1, _ | ⟨l2, ls⟩⟩
            · simp [get_terminal_pid, gtpTry, hsp]
            · simp [get_terminal_pid, gtpTry, hsp]
            · simp only [hsp] at h
              rcases hpm : pySplitMax l2 3 with _ | ⟨p0, _ | ⟨p1, prest⟩⟩
              · simp only [hpm] at h
              · simp only [hpm] at h
              · simp only [hpm] at h
                simp [get_terminal_pid, gtpTry, hsp, hpm, h]
        · simp [get_terminal_pid, gtpTry, hrc]
  · intro out l1 l2 ls p0 hsp hpm
    simp [get_terminal_pid, gtpTry, hsp, hpm]
  · intro out l1 l2 ls p0 p1 n hsp hpm hint
    simp [get_terminal_pid, gtpTry, hsp, hpm, hint]
  · intro out l1 l2 ls p0 p1 p2 rest n hsp hpm hint
    simp [get_terminal_pid, gtpTry, hsp, hpm, hint]

/-- Witness for C4: the timeout fallback, and a concrete two-column data
line whose tty column is absent degrading field-by-field. -/
theorem claim_C4_witness :
    get_terminal_pid 7 .timeout = .ok ⟨7, none, none⟩ ∧
    get_terminal_pid 7 (.completed 0 "H\n 1 2".data) = .ok ⟨7, some 2, none⟩ := by
  refine ⟨(claim_C4_resolver_total 7 .timeout).2.1 trivial, ?_⟩
  exact (claim_C4_resolver_total 7 (.completed 0 "H\n 1 2".data)).2.2.2.1
    "H\n 1 2".data "H".data " 1 2".data [] "1".data "2".data 2
    (by decide) (by decide) (by decide)

/-- The `tty` value of the built state is always the `pyOrTty` combination
of the override and the identity's tty, whatever the event kind. -/
theorem jget_tty_eq (sid cwd event tool : Json) (info : TerminalInfo)
    (tty : Option String) (ts : Int) :
    jget (buildState sid cwd event tool info tty ts) "tty"
      = some (pyOrTty tty info.tty) := by
  unfold buildState
  split_ifs <;> rfl

/-- Claim C5: any failure at connect, write or close makes `send_to_app`
return `false` (exceptions all caught, no retry — exactly one connect
attempt); `true` is returned only when the complete serialized record was
handed to `sendall`; and the boolean is discarded: the socket flags never
change `main`'s exit behaviour. -/
theorem claim_C5_delivery_swallows (env : Env) (st : List (String × Json)) :
    ((env.connectOk = false ∨ env.sendOk = false ∨ env.closeOk = false) →
      (send_to_app env st).1 = false) ∧
    ((send_to_app env st).1 = true →
      (send_to_app env st).2.written = [dumpsL (Json.obj st) ++ ['\n']]) ∧
    (send_to_app env st).2.connectAttempts = 1 ∧
    (∀ c s cl inp,
      exitOf (pymain { env with connectOk := c, sendOk := s, closeOk := cl } inp)
        = exitOf (pymain env inp)) := by
  obtain ⟨ppid, ps, tn, ms, co, so, clo⟩ := env
  refine ⟨?_, ?_, ?_, ?_⟩
  · intro h
    cases co <;> cases so <;> cases clo <;> simp_all [send_to_app]
  · intro h
    cases co <;> cases so <;> cases clo <;> simp_all [send_to_app]
  · cases co <;> cases so <;> cases clo <;> rfl
  · intro c s cl inp
    cases inp with
    | parseFail => rfl
    | parsed data =>
        cases data with
        | obj kvs =>
            cases hgt : get_terminal_pid ppid ps <;> simp [pymain, hgt, exitOf]
        | null => rfl
        | bool b => rfl
        | int n => rfl
        | str s' => rfl
        | arr xs => rfl

/-- Witness for C5: a refused connection returns `false` after the single
connect attempt. -/
theorem claim_C5_witness :
    (send_to_app ⟨1, .timeout, none, 0, false, true, true⟩ []).1 = false ∧
    (send_to_app ⟨1, .timeout, none, 0, false, true, true⟩ []).2.connectAttempts = 1 :=
  ⟨(claim_C5_delivery_swallows ⟨1, .timeout, none, 0, false, true, true⟩ []).1 (Or.inl rfl),
   (claim_C5_delivery_swallows ⟨1, .timeout, none, 0, false, true, true⟩ []).2.2.1⟩

/-- Counterexample to claim C6 as stated: with the override present but
equal to the empty string (`tty_override = some ""`) and an identity tty
of `"ttys001"`, the record's `tty` field is `"ttys001"`, not the
override — Python's `or` selects on truthiness, not on presence. -/
theorem claim_C6_counterexample :
    (some "" : Option String).isSome = true ∧
    jget (buildState (Json.str "abc") (Json.str "/tmp") (Json.str "Stop") Json.null
        ⟨1, none, some "ttys001"⟩ (some "") 0) "tty" = some (Json.str "ttys001") ∧
    jget (buildState (Json.str "abc") (Json.str "/tmp") (Json.str "Stop") Json.null
        ⟨1, none, some "ttys001"⟩ (some "") 0) "tty" ≠ some (Json.str "") := by
  refine ⟨rfl, rfl, ?_⟩
  intro h
  rw [show jget (buildState (Json.str "abc") (Json.str "/tmp") (Json.str "Stop")
      Json.null ⟨1, none, some "ttys001"⟩ (some "") 0) "tty"
      = some (Json.str "ttys001") from rfl] at h
  injection h with h₁
  injection h₁ with h₂
  exact absurd h₂ (by decide)

/-- Claim C6 (amended): the record's `tty` equals the override when the
override is present and non-empty; a `none` override, or a present but
empty-string override (which Python's `or` treats as absent), falls back
to the identity's tty. -/
theorem claim_C6_tty_truthiness (sid cwd event tool : Json) (info : TerminalInfo)
    (tty : Option String) (ts : Int) :
    jget (buildState sid cwd event tool info tty ts) "tty"
      = some (pyOrTty tty info.tty) ∧
    (∀ s, tty = some s → s ≠ "" →
      jget (buildState sid cwd event tool info tty ts) "tty" = some (Json.str s)) ∧
    (tty = none →
      jget (buildState sid cwd event tool info tty ts) "tty" = some (optStr info.tty)) ∧
    (tty = some "" →
      jget (buildState sid cwd event tool info tty ts) "tty" = some (optStr info.tty)) := by
  refine ⟨jget_tty_eq sid cwd event tool info tty ts, ?_, ?_, ?_⟩
  · intro s hs hne
    subst hs
    rw [jget_tty_eq]
    simp [pyOrTty, hne]
  · intro h
    subst h
    rw [jget_tty_eq]
    rfl
  · intro h
    subst h
    rw [jget_tty_eq]
    rfl

/-- Witness for C6 at a concrete non-empty override. -/
theorem claim_C6_witness :
    jget (buildState Json.null Json.null (Json.str "Stop") Json.null
        ⟨1, none, some "cons"⟩ (some "/dev/t") 0) "tty" = some (Json.str "/dev/t") :=
  (claim_C6_tty_truthiness Json.null Json.null (Json.str "Stop") Json.null
      ⟨1, none, some "cons"⟩ (some "/dev/t") 0).2.1 "/dev/t" rfl (by decide)

/-- Claim C7: a successful delivery writes exactly one payload on the
connection, that payload is the serialized record followed by the newline
delimiter, and it contains exactly one newline (every newline inside the
record is escaped by the serializer). -/
theorem claim_C7_framing (env : Env) (st : List (String × Json)) :
    (send_to_app env st).1 = true →
    (send_to_app env st).2.written = [dumpsL (Json.obj st) ++ ['\n']] ∧
    (send_to_app env st).2.written.length = 1 ∧
    (dumpsL (Json.obj st) ++ ['\n']).count '\n' = 1 := by
  intro h
  have hc : (dumpsL (Json.obj st) ++ ['\n']).count '\n' = 1 := by
    rw [List.count_append, List.count_eq_zero.mpr (dumpsL_no_nl (Json.obj st))]
    rfl
  obtain ⟨ppid, ps, tn, ms, co, so, clo⟩ := env
  cases co <;> cases so <;> cases clo <;> simp_all [send_to_app]

/-- Witness for C7 on an all-successful socket with the empty record. -/
theorem claim_C7_witness :
    (send_to_app ⟨1, .timeout, none, 0, true, true, true⟩ []).1 = true ∧
    (send_to_app ⟨1, .timeout, none, 0, true, true, true⟩ []).2.written.length = 1 :=
  ⟨rfl, (claim_C7_framing ⟨1, .timeout, none, 0, true, true, true⟩ [] rfl).2.1⟩

/-- Claim C8: normalization is deterministic — with a frozen clock the
serialized record is byte-identical across runs on identical inputs, and
without it the two states agree on every field except the single
`timestamp` field. -/
theorem claim_C8_deterministic (sid cwd event tool : Json) (info : TerminalInfo)
    (tty : Option String) (ts₁ ts₂ : Int) :
    (ts₁ = ts₂ →
      dumpsL (Json.obj (buildState sid cwd event tool info tty ts₁))
        = dumpsL (Json.obj (buildState sid cwd event tool info tty ts₂))) ∧
    (buildState sid cwd event tool info tty ts₁).filter (fun kv => kv.1 != "timestamp")
      = (buildState sid cwd event tool info tty ts₂).filter
          (fun kv => kv.1 != "timestamp") ∧
    countKey (buildState sid cwd event tool info tty ts₁) "timestamp" = 1 := by
  refine ⟨fun h => by rw [h], ?_, ?_⟩
  · unfold buildState
    split_ifs <;> rfl
  · unfold buildState
    split_ifs <;> rfl

/-- Witness for C8 with the clock frozen at 5. -/
theorem claim_C8_witness :
    dumpsL (Json.obj (buildState Json.null Json.null Json.null Json.null
        ⟨1, none, none⟩ none 5))
      = dumpsL (Json.obj (buildState Json.null Json.null Json.null Json.null
        ⟨1, none, none⟩ none 5)) ∧
    countKey (buildState Json.null Json.null Json.null Json.null
        ⟨1, none, none⟩ none 5) "timestamp" = 1 :=
  ⟨(claim_C8_deterministic Json.null Json.null Json.null Json.null
      ⟨1, none, none⟩ none 5 5).1 rfl,
   (claim_C8_deterministic Json.null Json.null Json.null Json.null
      ⟨1, none, none⟩ none 5 5).2.2⟩

/-- Claim C9: an object payload missing `session_id`, `cwd` and
`hook_event_name` still yields a record, with defaults `"unknown"`, `""`
and `""`; the empty event name falls to the unknown-event branch giving
`status = "active"`, and one delivery is still attempted. -/
theorem claim_C9_missing_fields (env : Env) (kvs : List (String × Json))
    (info : TerminalInfo)
    (h1 : jget kvs "session_id" = none) (h2 : jget kvs "cwd" = none)
    (h3 : jget kvs "hook_event_name" = none) :
    jget (extractState kvs info (get_tty env.ttyname) env.elapsedMs) "session_id"
      = some (Json.str "unknown") ∧
    jget (extractState kvs info (get_tty env.ttyname) env.elapsedMs) "cwd"
      = some (Json.str "") ∧
    jget (extractState kvs info (get_tty env.ttyname) env.elapsedMs) "event"
      = some (Json.str "") ∧
    jget (extractState kvs info (get_tty env.ttyname) env.elapsedMs) "status"
      = some (Json.str "active") ∧
    (get_terminal_pid env.ppid env.ps = .ok info →
      ∃ tr, pymain env (.parsed (.obj kvs)) = .exit 0 [tr]) := by
  have he : extractState kvs info (get_tty env.ttyname) env.elapsedMs
      = buildState (Json.str "unknown") (Json.str "") (Json.str "")
          (jgetD kvs "tool_name" Json.null) info (get_tty env.ttyname)
          env.elapsedMs := by
    unfold extractState jgetD
    rw [h1, h2, h3]
    rfl
  rw [he]
  refine ⟨rfl, rfl, rfl, rfl, ?_⟩
  intro hgt
  refine ⟨(send_to_app env (extractState kvs info (get_tty env.ttyname)
    env.elapsedMs)).2, ?_⟩
  simp [pymain, hgt]

/-- Witness for C9 on the empty object payload. -/
theorem claim_C9_witness :
    jget (extractState [] ⟨1, none, none⟩ (get_tty none) 0) "session_id"
      = some (Json.str "unknown") ∧
    (∃ tr, pymain ⟨1, .timeout, none, 0, true, true, true⟩ (.parsed (.obj []))
        = .exit 0 [tr]) := by
  have t := claim_C9_missing_fields ⟨1, .timeout, none, 0, true, true, true⟩ []
    ⟨1, none, none⟩ rfl rfl rfl
  exact ⟨t.1, t.2.2.2.2 rfl⟩

/-- Claim C10: on a `PreToolUse`/`PostToolUse` event with no `tool_name`
in the payload, the record still carries the `tool` key, bound to the
null value rather than omitted. -/
theorem claim_C10_tool_key_always_present (kvs : List (String × Json))
    (info : TerminalInfo) (tty : Option String) (ts : Int)
    (htool : jget kvs "tool_name" = none)
    (hev : jget kvs "hook_event_name" = some (Json.str "PreToolUse") ∨
           jget kvs "hook_event_name" = some (Json.str "PostToolUse")) :
    jget (extractState kvs info tty ts) "tool" = some Json.null := by
  rcases hev with h | h <;>
  · unfold extractState jgetD
    rw [h, htool]
    rfl

/-- Witness for C10 at a concrete `PreToolUse` payload without
`tool_name`. -/
theorem claim_C10_witness :
    jget (extractState [("hook_event_name", Json.str "PreToolUse")]
        ⟨1, none, none⟩ none 0) "tool" = some Json.null :=
  claim_C10_tool_key_always_present [("hook_event_name", Json.str "PreToolUse")]
    ⟨1, none, none⟩ none 0 rfl (Or.inl rfl)
